import Mathlib

/-!
Verification of the metrics registration / storage / collection pipeline of an
OpenTelemetry JS SDK slice.  The authoritative sources are `Meter.ts`
(instrument registration, storage registry, collection fan-out) and the
`MetricStorage` interface.  Parts of the repository that are referenced but
not present in the analysed slice (ViewRegistry, the internals of
SyncMetricStorage, the MultiMetricStorage write fan-out, the instrument write
path) are modelled from the specification and marked as such in their doc
comments.
-/

/-- A high-resolution timestamp (HrTime): seconds and nanoseconds. -/
structure HrTime where
  seconds : Nat
  nanos : Nat
deriving DecidableEq, Repr

/-- A resource, reduced to its attribute map. -/
structure Resource where
  attributes : List (String × String)
deriving DecidableEq, Repr

/-- An instrumentation library (the identity of a Meter's scope). -/
structure InstrumentationLibrary where
  name : String
  version : String
deriving DecidableEq, Repr

/-- Opaque handle identifying one export pipeline (a MetricCollector). -/
structure MetricCollectorHandle where
  id : Nat
deriving DecidableEq, Repr

/-- The instrument kinds of InstrumentDescriptor.ts. -/
inductive InstrumentType where
  | COUNTER
  | HISTOGRAM
  | UP_DOWN_COUNTER
  | OBSERVABLE_COUNTER
  | OBSERVABLE_GAUGE
  | OBSERVABLE_UP_DOWN_COUNTER
deriving DecidableEq, Repr

/-- An instrument descriptor: the immutable identity of an instrument. -/
structure InstrumentDescriptor where
  name : String
  type : InstrumentType
  description : String
  unit : String
deriving DecidableEq, Repr

/-- An attribute set: key/value pairs distinguishing one series from another. -/
abbrev AttributeSet := List (String × String)

/-- One recorded measurement: a value together with its attribute set. -/
structure Measurement where
  value : Int
  attributes : AttributeSet
deriving DecidableEq, Repr

/-- The value carried by one collected point: a running sum for counters and
up/down counters, or histogram state (sum, count, bucket counts). -/
inductive PointValue where
  | sum (value : Int)
  | histogram (total : Int) (count : Nat) (bucketCounts : List Nat)
deriving DecidableEq, Repr

/-- An immutable point snapshot produced at collection time. -/
structure MetricPoint where
  attributes : AttributeSet
  value : PointValue
  startTime : HrTime
  endTime : HrTime
deriving DecidableEq, Repr

/-- The unit handed to an exporter: one instrument's snapshot for one
collection cycle. -/
structure MetricData where
  name : String
  resource : Resource
  instrumentationLibrary : InstrumentationLibrary
  points : List MetricPoint
deriving DecidableEq, Repr

/-- The six arguments Meter.collect passes to every storage's collect
(MetricStorage.ts lines 36-43). -/
structure CollectArgs where
  collector : MetricCollectorHandle
  metricCollectors : List MetricCollectorHandle
  resource : Resource
  instrumentationLibrary : InstrumentationLibrary
  sdkStartTime : HrTime
  collectionTime : HrTime
deriving DecidableEq, Repr

/-- Modelled from the spec (section 4.1): a View is a match predicate over
instrument descriptors (name, kind, owning meter) plus an aggregation
configuration (optional rename, optional explicit histogram boundaries).
The View/ViewRegistry sources are not part of the analysed slice. -/
structure View where
  instrumentName : Option String
  instrumentType : Option InstrumentType
  meterName : Option String
  viewName : Option String
  boundaries : Option (List Int)
deriving DecidableEq, Repr

/-- Modelled from the spec (section 4.1): a View matches on instrument name,
instrument kind, and optionally the requesting instrumentation scope; an
absent selector matches everything. -/
def viewMatches (v : View) (d : InstrumentDescriptor) (lib : InstrumentationLibrary) : Bool :=
  (match v.instrumentName with
   | none => true
   | some n => n == d.name) &&
  (match v.instrumentType with
   | none => true
   | some t => t == d.type) &&
  (match v.meterName with
   | none => true
   | some m => m == lib.name)

/-- Modelled from the spec (section 4.1): the synthesized default view uses
the descriptor as-is (no rename, no selector, default aggregation). -/
def defaultView : View :=
  { instrumentName := none, instrumentType := none, meterName := none,
    viewName := none, boundaries := none }

/-- Modelled from the spec (section 4.1): `findViews(descriptor, scope)`
returns the ordered matching views; if zero explicit views match, the system
synthesizes one default view using the descriptor as-is, so that storage is
still created with default aggregation.  The ViewRegistry source is not part
of the analysed slice. -/
def ViewRegistry.findViews (registeredViews : List View) (d : InstrumentDescriptor)
    (lib : InstrumentationLibrary) : List View :=
  let matched := registeredViews.filter (fun v => viewMatches v d lib)
  if matched.isEmpty then [defaultView] else matched

/-- Modelled from the spec (section 4.2): the index of the bucket a value
falls under, given the explicit boundaries; the last boundary is implicitly
plus infinity (the final overflow bucket). -/
def bucketIndex : List Int → Int → Nat
  | [], _ => 0
  | b :: rest, v => if v ≤ b then 0 else bucketIndex rest v + 1

/-- Modelled from the spec (section 4.2): per-boundary bucket counts; there is
one bucket per explicit boundary plus the implicit overflow bucket. -/
def histBucketCounts (boundaries : List Int) (values : List Int) : List Nat :=
  (List.range (boundaries.length + 1)).map
    (fun i => (values.filter (fun v => bucketIndex boundaries v == i)).length)

/-- Modelled from the spec (section 4.2): the point value computed from the
accumulated values of one attribute-set bucket — a histogram state for
histograms, a running sum for every other instrument kind. -/
def pointValue (t : InstrumentType) (boundaries : List Int) (values : List Int) : PointValue :=
  match t with
  | .HISTOGRAM =>
      .histogram (values.foldl (fun a v => a + v) 0) values.length
        (histBucketCounts boundaries values)
  | _ => .sum (values.foldl (fun a v => a + v) 0)

/-- Modelled from the spec (section 4.2): the state of one SyncMetricStorage —
the view and descriptor it was created from plus the measurements accumulated
so far.  `SyncMetricStorage.create(view, descriptor)` is called from
Meter.ts line 107 but its source is not part of the analysed slice. -/
structure SyncMetricStorage where
  view : View
  descriptor : InstrumentDescriptor
  records : List Measurement
deriving DecidableEq, Repr

/-- Modelled from the spec: a freshly created storage has no accumulations. -/
def SyncMetricStorage.create (view : View) (descriptor : InstrumentDescriptor) :
    SyncMetricStorage :=
  { view := view, descriptor := descriptor, records := [] }

/-- Modelled from the spec (section 4.2, write path): recording a measurement
appends it to the storage's accumulated state. -/
def SyncMetricStorage.record (s : SyncMetricStorage) (m : Measurement) : SyncMetricStorage :=
  { s with records := s.records ++ [m] }

/-- The distinct attribute sets of the accumulated measurements, in order of
first occurrence (the aggregation buckets of the spec, section 3). -/
def distinctAttrs (records : List Measurement) : List AttributeSet :=
  records.foldl (fun acc r => if acc.contains r.attributes then acc else acc ++ [r.attributes]) []

/-- The values recorded under one attribute-set bucket, in order. -/
def valuesFor (records : List Measurement) (a : AttributeSet) : List Int :=
  (records.filter (fun r => r.attributes == a)).map (fun r => r.value)

/-- Modelled from the spec (section 4.2, collect path): collecting a
SyncMetricStorage returns `none` when there are zero attribute-set buckets,
otherwise one MetricData with one point per bucket, the view's rename applied,
startTime = sdkStartTime (first cumulative collection) and
endTime = collectionTime. -/
def SyncMetricStorage.collectData (s : SyncMetricStorage) (args : CollectArgs) :
    Option MetricData :=
  if s.records.isEmpty then none
  else some
    { name := s.view.viewName.getD s.descriptor.name,
      resource := args.resource,
      instrumentationLibrary := args.instrumentationLibrary,
      points := (distinctAttrs s.records).map (fun a =>
        { attributes := a,
          value := pointValue s.descriptor.type (s.view.boundaries.getD []) (valuesFor s.records a),
          startTime := args.sdkStartTime,
          endTime := args.collectionTime }) }

/-- The process-wide shared state (MeterProviderSharedState.ts, as used by
Meter.ts): resource, SDK start time, view registry, registered collectors and
the list of meters (each identified by its instrumentation library). -/
structure MeterProviderSharedState where
  resource : Resource
  sdkStartTime : HrTime
  viewRegistry : List View
  metricCollectors : List MetricCollectorHandle
  meters : List InstrumentationLibrary
deriving DecidableEq, Repr

/-- Transcribes the Meter constructor (Meter.ts lines 37-39): it pushes the
new meter onto the shared state's meters list and touches nothing else. -/
def Meter.construct (shared : MeterProviderSharedState) (lib : InstrumentationLibrary) :
    MeterProviderSharedState :=
  { shared with meters := shared.meters ++ [lib] }

/-- The mutable state of one Meter: a counter providing fresh storage
identities, the heap of created storages (object identity made explicit), and
the name-keyed storage registry (`_metricStorageRegistry`, a JS Map). -/
structure MeterState where
  nextId : Nat
  heap : List (Nat × SyncMetricStorage)
  registry : List (String × Nat)
deriving DecidableEq, Repr

/-- A fresh Meter: empty registry, empty heap. -/
def MeterState.initial : MeterState := { nextId := 0, heap := [], registry := [] }

/-- JS `Map.set` semantics (keys are unique): replace the value in place when
the key exists, append a new entry otherwise (key-insertion order is kept). -/
def mapSet : List (String × Nat) → String → Nat → List (String × Nat)
  | [], k, v => [(k, v)]
  | p :: t, k, v => if p.1 = k then (k, v) :: t else p :: mapSet t k v

/-- Look a storage up in the heap by its identity. -/
def heapGet : List (Nat × SyncMetricStorage) → Nat → Option SyncMetricStorage
  | [], _ => none
  | p :: t, id => if p.1 = id then some p.2 else heapGet t id

/-- Record a measurement into the heap storage with the given identity. -/
def heapRecord : List (Nat × SyncMetricStorage) → Nat → Measurement →
    List (Nat × SyncMetricStorage)
  | [], _, _ => []
  | p :: t, id, m => (if p.1 = id then (p.1, p.2.record m) else p) :: heapRecord t id m

/-- The write target Meter.registerMetricStorage returns to the instrument:
either the single created storage, or a MultiMetricStorage over all created
storages (identified by their heap ids). -/
inductive WritableStorageHandle where
  | single (id : Nat)
  | multi (ids : List Nat)
deriving DecidableEq, Repr

/-- Modelled from the spec (sections 4.2 and 4.4): writing through the handle
records into the backing storage; a MultiMetricStorage fans the write out to
every backing storage (MultiWritableMetricStorage is not part of the analysed
slice). -/
def WritableStorageHandle.record (h : WritableStorageHandle) (m : Measurement)
    (heap : List (Nat × SyncMetricStorage)) : List (Nat × SyncMetricStorage) :=
  match h with
  | .single id => heapRecord heap id m
  | .multi ids => ids.foldl (fun hp id => heapRecord hp id m) heap

/-- Record a measurement through a handle, updating the Meter's heap. -/
def MeterState.record (st : MeterState) (h : WritableStorageHandle) (m : Measurement) :
    MeterState :=
  { st with heap := h.record m st.heap }

/-- Transcribes the body of the `views.map` loop of Meter.registerMetricStorage
(Meter.ts lines 106-111): for each view in order, create a SyncMetricStorage
and set it in the name-keyed registry; returns the created storage ids and the
updated Meter state. -/
def Meter.createStorages (d : InstrumentDescriptor) (st : MeterState) :
    List View → List Nat × MeterState
  | [] => ([], st)
  | v :: rest =>
    let id := st.nextId
    let storage := SyncMetricStorage.create v d
    let st1 : MeterState :=
      { nextId := id + 1,
        heap := st.heap ++ [(id, storage)],
        registry := mapSet st.registry d.name id }
    let res := Meter.createStorages d st1 rest
    (id :: res.1, res.2)

/-- Transcribes the final branch of Meter.registerMetricStorage (Meter.ts
lines 112-115): return the single storage when exactly one was created,
otherwise wrap all created storages in a MultiMetricStorage. -/
def storagesHandle : List Nat → WritableStorageHandle
  | [id] => .single id
  | ids => .multi ids

/-- Transcribes Meter.registerMetricStorage (Meter.ts lines 104-116):
look the matching views up in the shared state's view registry, create one
storage per view (registering each under the descriptor's name), and return
the write handle together with the updated Meter state. -/
def Meter.registerMetricStorage (shared : MeterProviderSharedState)
    (lib : InstrumentationLibrary) (st : MeterState) (d : InstrumentDescriptor) :
    WritableStorageHandle × MeterState :=
  let views := ViewRegistry.findViews shared.viewRegistry d lib
  let res := Meter.createStorages d st views
  (storagesHandle res.1, res.2)

/-- Transcribes Meter.createCounter (Meter.ts lines 53-57); the descriptor
construction (createInstrumentDescriptor, not in the analysed slice) is
modelled from the spec as pairing the name and options with the COUNTER
instrument type. -/
def Meter.createCounter (shared : MeterProviderSharedState) (lib : InstrumentationLibrary)
    (st : MeterState) (name description unitStr : String) :
    WritableStorageHandle × MeterState :=
  Meter.registerMetricStorage shared lib st
    { name := name, type := .COUNTER, description := description, unit := unitStr }

/-- Transcribes Meter.createUpDownCounter (Meter.ts lines 62-66). -/
def Meter.createUpDownCounter (shared : MeterProviderSharedState)
    (lib : InstrumentationLibrary) (st : MeterState) (name description unitStr : String) :
    WritableStorageHandle × MeterState :=
  Meter.registerMetricStorage shared lib st
    { name := name, type := .UP_DOWN_COUNTER, description := description, unit := unitStr }

/-- Transcribes Meter.createHistogram (Meter.ts lines 44-48). -/
def Meter.createHistogram (shared : MeterProviderSharedState)
    (lib : InstrumentationLibrary) (st : MeterState) (name description unitStr : String) :
    WritableStorageHandle × MeterState :=
  Meter.registerMetricStorage shared lib st
    { name := name, type := .HISTOGRAM, description := description, unit := unitStr }

/-- A metric storage as Meter.collect sees it through the MetricStorage
interface (MetricStorage.ts lines 29-44): `collect` takes the six arguments
and returns a promise of at most one MetricData; the promise may reject
(modelled by `Except.error`). -/
structure MetricStorageBehavior where
  collect : CollectArgs → Except String (Option MetricData)

/-- Promise.all semantics over already-determined outcomes: resolves with
the list of all values when every promise resolves; rejects (with the first
rejection) as soon as any promise rejects, discarding the other results. -/
def promiseAll : List (Except String (Option MetricData)) →
    Except String (List (Option MetricData))
  | [] => .ok []
  | r :: rest =>
    match r with
    | .error e => .error e
    | .ok a => (promiseAll rest).map (fun l => a :: l)

/-- The argument tuple Meter.collect builds once per call and hands to every
storage (Meter.ts lines 136-141): the initiating collector, the shared
state's collector list, resource and SDK start time, the Meter's
instrumentation library, and the fixed collection time. -/
def Meter.collectArgs (shared : MeterProviderSharedState) (lib : InstrumentationLibrary)
    (collector : MetricCollectorHandle) (collectionTime : HrTime) : CollectArgs :=
  { collector := collector,
    metricCollectors := shared.metricCollectors,
    resource := shared.resource,
    instrumentationLibrary := lib,
    sdkStartTime := shared.sdkStartTime,
    collectionTime := collectionTime }

/-- The calls Meter.collect makes (Meter.ts lines 134-141): every registered
storage is invoked with the one argument tuple built from the collector, the
shared state and the fixed collection time. -/
def Meter.collectCalls (storages : List MetricStorageBehavior)
    (shared : MeterProviderSharedState) (lib : InstrumentationLibrary)
    (collector : MetricCollectorHandle) (collectionTime : HrTime) :
    List (MetricStorageBehavior × CollectArgs) :=
  storages.map (fun s => (s, Meter.collectArgs shared lib collector collectionTime))

/-- Transcribes Meter.collect (Meter.ts lines 133-144): Promise.all over every
registered storage's collect, then `result.filter(isNotNullish)` — the
non-null results, flattened into one list. -/
def Meter.collect (storages : List MetricStorageBehavior)
    (shared : MeterProviderSharedState) (lib : InstrumentationLibrary)
    (collector : MetricCollectorHandle) (collectionTime : HrTime) :
    Except String (List MetricData) :=
  (promiseAll ((Meter.collectCalls storages shared lib collector collectionTime).map
    (fun c => c.1.collect c.2))).map (fun result => result.filterMap id)

/-- A SyncMetricStorage seen through the MetricStorage interface: its collect
never rejects (synchronous storage collection never suspends, spec section 5). -/
def SyncMetricStorage.toBehavior (s : SyncMetricStorage) : MetricStorageBehavior :=
  { collect := fun args => .ok (s.collectData args) }

/-- The registered storages, in registry (key-insertion) order — the list
Array.from(registry.values()) iterates in Meter.collect (Meter.ts line 134). -/
def MeterState.registryStorages (st : MeterState) : List SyncMetricStorage :=
  st.registry.filterMap (fun p => heapGet st.heap p.2)

/-- Meter.collect applied to the Meter's own registered (synchronous)
storages. -/
def Meter.collectSync (st : MeterState) (shared : MeterProviderSharedState)
    (lib : InstrumentationLibrary) (collector : MetricCollectorHandle)
    (collectionTime : HrTime) : Except String (List MetricData) :=
  Meter.collect (st.registryStorages.map SyncMetricStorage.toBehavior)
    shared lib collector collectionTime

/-- Whether an Except is a resolved (non-rejected) outcome. -/
def exceptIsOk {ε α : Type} : Except ε α → Bool
  | .ok _ => true
  | .error _ => false

/-- The number of MetricData entries a collect outcome carries (zero for a
rejected collection). -/
def collectedCount (e : Except String (List MetricData)) : Nat :=
  match e with
  | .ok l => l.length
  | .error _ => 0

/-! Helper lemmas about the registry map, the heap and storage creation. -/

theorem mapSet_mapSet (r : List (String × Nat)) (k : String) (a b : Nat) :
    mapSet (mapSet r k a) k b = mapSet r k b := by
  induction r with
  | nil => simp [mapSet]
  | cons p t ih =>
    by_cases h : p.1 = k
    · simp [mapSet, h]
    · simp [mapSet, h, ih]

theorem heapGet_heapRecord_self (heap : List (Nat × SyncMetricStorage)) (id : Nat)
    (m : Measurement) :
    heapGet (heapRecord heap id m) id = (heapGet heap id).map (fun s => s.record m) := by
  induction heap with
  | nil => rfl
  | cons p t ih =>
    by_cases h : p.1 = id
    · simp [heapRecord, heapGet, h]
    · simp [heapRecord, heapGet, h, ih]

theorem heapGet_heapRecord_ne (heap : List (Nat × SyncMetricStorage)) (id j : Nat)
    (m : Measurement) (h : j ≠ id) :
    heapGet (heapRecord heap id m) j = heapGet heap j := by
  induction heap with
  | nil => rfl
  | cons p t ih =>
    by_cases hp : p.1 = j
    · have hpid : ¬ p.1 = id := by
        rw [hp]
        exact h
      simp [heapRecord, heapGet, hp, hpid, h]
    · by_cases hq : p.1 = id
      · simp [heapRecord, heapGet, hp, hq, ih, Ne.symm h]
      · simp [heapRecord, heapGet, hp, hq, ih]

theorem heapGet_foldRecord (ids : List Nat) (heap : List (Nat × SyncMetricStorage))
    (m : Measurement) (j : Nat) (hnodup : ids.Nodup) :
    heapGet (ids.foldl (fun hp id => heapRecord hp id m) heap) j =
      if j ∈ ids then (heapGet heap j).map (fun s => s.record m) else heapGet heap j := by
  induction ids generalizing heap with
  | nil => simp
  | cons id rest ih =>
    have hpair := List.nodup_cons.mp hnodup
    simp only [List.foldl_cons]
    rw [ih (heapRecord heap id m) hpair.2]
    by_cases hj : j = id
    · subst hj
      simp only [if_neg hpair.1, List.mem_cons, true_or, if_true]
      exact heapGet_heapRecord_self heap j m
    · by_cases hjr : j ∈ rest
      · simp only [if_pos hjr, List.mem_cons, hjr, or_true, if_true]
        rw [heapGet_heapRecord_ne heap id j m hj]
      · simp only [if_neg hjr, List.mem_cons]
        rw [if_neg (by tauto)]
        exact heapGet_heapRecord_ne heap id j m hj

theorem createStorages_ids (d : InstrumentDescriptor) (vs : List View) (st : MeterState) :
    (Meter.createStorages d st vs).1 = List.range' st.nextId vs.length := by
  induction vs generalizing st with
  | nil => rfl
  | cons v rest ih =>
    simp only [Meter.createStorages, List.length_cons, List.range'_succ]
    simp [ih]

theorem createStorages_nextId (d : InstrumentDescriptor) (vs : List View) (st : MeterState) :
    (Meter.createStorages d st vs).2.nextId = st.nextId + vs.length := by
  induction vs generalizing st with
  | nil => simp [Meter.createStorages]
  | cons v rest ih =>
    simp only [Meter.createStorages]
    rw [ih]
    simp
    omega

theorem createStorages_heap (d : InstrumentDescriptor) (vs : List View) (st : MeterState) :
    (Meter.createStorages d st vs).2.heap =
      st.heap ++ (List.range' st.nextId vs.length).zip
        (vs.map (fun v => SyncMetricStorage.create v d)) := by
  induction vs generalizing st with
  | nil => simp [Meter.createStorages]
  | cons v rest ih =>
    simp only [Meter.createStorages, List.length_cons, List.range'_succ, List.map_cons,
      List.zip_cons_cons]
    rw [ih]
    simp [List.append_assoc]

theorem createStorages_registry (d : InstrumentDescriptor) (vs : List View) (st : MeterState)
    (h : vs ≠ []) :
    (Meter.createStorages d st vs).2.registry =
      mapSet st.registry d.name (st.nextId + vs.length - 1) := by
  induction vs generalizing st with
  | nil => exact absurd rfl h
  | cons v rest ih =>
    simp only [Meter.createStorages]
    cases rest with
    | nil =>
      simp [Meter.createStorages]
    | cons w ws =>
      rw [ih _ (by simp)]
      simp only [mapSet_mapSet]
      congr 1
      simp only [List.length_cons]
      omega

theorem heapGet_zip_range' (a n k : Nat) (cs : List SyncMetricStorage)
    (hlen : cs.length = n) (hk : k < n) :
    heapGet ((List.range' a n).zip cs) (a + k) = cs.get? k := by
  induction n generalizing a k cs with
  | zero => omega
  | succ n ih =>
    cases cs with
    | nil => simp at hlen
    | cons c cs =>
      rw [List.range'_succ, List.zip_cons_cons]
      cases k with
      | zero =>
        simp [heapGet]
      | succ k =>
        have h1 : ¬ (a = a + (k + 1)) := by omega
        simp only [heapGet, h1, if_false]
        have h2 := ih (a + 1) k cs (by simpa using hlen) (by omega)
        rw [show a + (k + 1) = a + 1 + k by omega]
        simpa using h2

/-! Lemmas about the collection fan-out. -/

theorem meter_collect_eq (storages : List MetricStorageBehavior)
    (shared : MeterProviderSharedState) (lib : InstrumentationLibrary)
    (collector : MetricCollectorHandle) (t : HrTime) :
    Meter.collect storages shared lib collector t =
      (promiseAll (storages.map (fun s => s.collect
        (Meter.collectArgs shared lib collector t)))).map
        (fun result => result.filterMap id) := by
  simp only [Meter.collect, Meter.collectCalls, List.map_map]
  rfl

theorem collect_behavior_singleton (s : SyncMetricStorage)
    (shared : MeterProviderSharedState) (lib : InstrumentationLibrary)
    (collector : MetricCollectorHandle) (t : HrTime) :
    Meter.collect [s.toBehavior] shared lib collector t =
      .ok ((s.collectData (Meter.collectArgs shared lib collector t)).toList) := by
  rw [meter_collect_eq]
  simp only [List.map_cons, List.map_nil, SyncMetricStorage.toBehavior]
  cases h : s.collectData (Meter.collectArgs shared lib collector t) with
  | none => simp [promiseAll, h, Except.map]
  | some d => simp [promiseAll, h, Except.map]

theorem collectData_single_record (v : View) (d : InstrumentDescriptor)
    (m : Measurement) (args : CollectArgs) :
    SyncMetricStorage.collectData { view := v, descriptor := d, records := [m] } args =
      some
        { name := v.viewName.getD d.name,
          resource := args.resource,
          instrumentationLibrary := args.instrumentationLibrary,
          points := [{ attributes := m.attributes,
                       value := pointValue d.type (v.boundaries.getD []) [m.value],
                       startTime := args.sdkStartTime,
                       endTime := args.collectionTime }] } := by
  simp [SyncMetricStorage.collectData, distinctAttrs, valuesFor]

theorem promiseAll_ok (rs : List (Except String (Option MetricData)))
    (h : ∀ r ∈ rs, ∃ o, r = .ok o) :
    promiseAll rs = .ok (rs.map (fun r =>
      match r with
      | .ok o => o
      | .error _ => none)) := by
  induction rs with
  | nil => rfl
  | cons r rest ih =>
    obtain ⟨o, rfl⟩ := h r (by simp)
    rw [promiseAll, ih (fun r hr => h r (by simp [hr]))]
    simp [Except.map]

theorem storagesHandle_record (ids : List Nat) (m : Measurement)
    (heap : List (Nat × SyncMetricStorage)) :
    (storagesHandle ids).record m heap =
      ids.foldl (fun hp id => heapRecord hp id m) heap := by
  match ids with
  | [] => rfl
  | [a] => rfl
  | a :: b :: t => rfl

/-- The combined effect of Meter.registerMetricStorage on a fresh Meter plus
one write through the returned handle: the handle covers the storages of all
matching views, the registry keeps only the id of the storage created last,
the write lands in every created storage, and only the last view's storage is
reachable from the registry. -/
theorem register_record_spec (shared : MeterProviderSharedState)
    (lib : InstrumentationLibrary) (d : InstrumentDescriptor) (vs : List View)
    (m : Measurement)
    (hv : ViewRegistry.findViews shared.viewRegistry d lib = vs) (hne : vs ≠ []) :
    (Meter.registerMetricStorage shared lib MeterState.initial d).1 =
      storagesHandle (List.range' 0 vs.length) ∧
    (Meter.registerMetricStorage shared lib MeterState.initial d).2.registry =
      [(d.name, vs.length - 1)] ∧
    (∀ k, k < vs.length →
      heapGet ((Meter.registerMetricStorage shared lib MeterState.initial d).2.record
        (Meter.registerMetricStorage shared lib MeterState.initial d).1 m).heap k =
      (vs.get? k).map (fun v => { view := v, descriptor := d, records := [m] })) ∧
    ((Meter.registerMetricStorage shared lib MeterState.initial d).2.record
        (Meter.registerMetricStorage shared lib MeterState.initial d).1 m).registryStorages =
      ((vs.get? (vs.length - 1)).map
        (fun v => ({ view := v, descriptor := d, records := [m] } : SyncMetricStorage))).toList := by
  have hids : (Meter.registerMetricStorage shared lib MeterState.initial d).1 =
      storagesHandle (List.range' 0 vs.length) := by
    simp only [Meter.registerMetricStorage, hv]
    rw [createStorages_ids]
    rfl
  have hreg : (Meter.registerMetricStorage shared lib MeterState.initial d).2.registry =
      [(d.name, vs.length - 1)] := by
    simp only [Meter.registerMetricStorage, hv]
    rw [createStorages_registry _ _ _ hne]
    simp [MeterState.initial, mapSet]
  have hheap : (Meter.registerMetricStorage shared lib MeterState.initial d).2.heap =
      (List.range' 0 vs.length).zip (vs.map (fun v => SyncMetricStorage.create v d)) := by
    simp only [Meter.registerMetricStorage, hv]
    rw [createStorages_heap]
    simp [MeterState.initial]
  have hget : ∀ k, k < vs.length →
      heapGet ((Meter.registerMetricStorage shared lib MeterState.initial d).2.record
        (Meter.registerMetricStorage shared lib MeterState.initial d).1 m).heap k =
      (vs.get? k).map (fun v => { view := v, descriptor := d, records := [m] }) := by
    intro k hk
    simp only [MeterState.record, hids, hheap]
    rw [storagesHandle_record]
    rw [heapGet_foldRecord _ _ _ _ (List.nodup_range' 0 vs.length)]
    rw [if_pos (by simp [List.mem_range'_1]; omega)]
    have hz := heapGet_zip_range' 0 vs.length k
      (vs.map (fun v => SyncMetricStorage.create v d)) (by simp) hk
    simp only [Nat.zero_add] at hz
    rw [hz, List.get?_map, Option.map_map]
    rfl
  refine ⟨hids, hreg, hget, ?_⟩
  have hk : vs.length - 1 < vs.length := by
    cases vs with
    | nil => exact absurd rfl hne
    | cons v t => simp
  have hlast := hget (vs.length - 1) hk
  have hreg2 : ((Meter.registerMetricStorage shared lib MeterState.initial d).2.record
      (Meter.registerMetricStorage shared lib MeterState.initial d).1 m).registry =
      [(d.name, vs.length - 1)] := hreg
  simp only [MeterState.registryStorages, hreg2, List.filterMap_cons, List.filterMap_nil]
  cases ho : vs.get? (vs.length - 1) with
  | none =>
    rw [ho] at hlast
    simp at hlast
    simp [hlast, ho]
  | some v =>
    rw [ho] at hlast
    simp at hlast
    simp [hlast, ho]

/-! Concrete fixtures used by witnesses and counterexamples. -/

def libEx : InstrumentationLibrary := { name := "lib", version := "1" }

def sharedEx : MeterProviderSharedState :=
  { resource := { attributes := [] },
    sdkStartTime := { seconds := 0, nanos := 0 },
    viewRegistry := [],
    metricCollectors := [{ id := 0 }],
    meters := [] }

def argsEx : CollectArgs :=
  Meter.collectArgs sharedEx libEx { id := 0 } { seconds := 1, nanos := 2 }

def okData : MetricData :=
  { name := "b", resource := { attributes := [] },
    instrumentationLibrary := libEx, points := [] }

def okStorage : MetricStorageBehavior := { collect := fun _ => .ok (some okData) }

def emptyStorage : MetricStorageBehavior := { collect := fun _ => .ok none }

def failingStorage : MetricStorageBehavior := { collect := fun _ => .error "boom" }

/-- C10: constructing a Meter appends exactly that Meter to the shared state's
meters list and mutates nothing else in the MeterProviderSharedState: the
resource, SDK start time, view registry, collector list and every previously
registered meter are unchanged. -/
theorem meter_constructor_frame (shared : MeterProviderSharedState)
    (lib : InstrumentationLibrary) :
    (Meter.construct shared lib).meters = shared.meters ++ [lib] ∧
    (Meter.construct shared lib).resource = shared.resource ∧
    (Meter.construct shared lib).sdkStartTime = shared.sdkStartTime ∧
    (Meter.construct shared lib).viewRegistry = shared.viewRegistry ∧
    (Meter.construct shared lib).metricCollectors = shared.metricCollectors ∧
    (Meter.construct shared lib).meters.take shared.meters.length = shared.meters := by
  refine ⟨rfl, rfl, rfl, rfl, rfl, ?_⟩
  simp [Meter.construct]

/-- C7: within one Meter.collect call, every registered storage's collect is
invoked with the identical argument tuple: the same collectionTime, and the
same sdkStartTime, resource, instrumentation library and collector list taken
from the shared state, so all storages observe the same collection instant. -/
theorem collect_same_collection_instant (storages : List MetricStorageBehavior)
    (shared : MeterProviderSharedState) (lib : InstrumentationLibrary)
    (collector : MetricCollectorHandle) (t : HrTime) :
    Meter.collectCalls storages shared lib collector t =
      storages.map (fun s => (s, Meter.collectArgs shared lib collector t)) ∧
    ∀ c ∈ Meter.collectCalls storages shared lib collector t,
      c.2.collectionTime = t ∧ c.2.sdkStartTime = shared.sdkStartTime ∧
      c.2.resource = shared.resource ∧ c.2.instrumentationLibrary = lib ∧
      c.2.metricCollectors = shared.metricCollectors ∧ c.2.collector = collector := by
  refine ⟨rfl, ?_⟩
  intro c hc
  simp only [Meter.collectCalls, List.mem_map] at hc
  obtain ⟨s, hs, rfl⟩ := hc
  exact ⟨rfl, rfl, rfl, rfl, rfl, rfl⟩

/-- Witness for C7: the theorem applied at a concrete storage list, with the
membership hypothesis discharged at the single registered storage. -/
theorem collect_same_collection_instant_witness :
    (okStorage, argsEx) ∈ Meter.collectCalls [okStorage] sharedEx libEx { id := 0 }
      { seconds := 1, nanos := 2 } ∧
    argsEx.collectionTime = { seconds := 1, nanos := 2 } := by
  have hm : (okStorage, argsEx) ∈ Meter.collectCalls [okStorage] sharedEx libEx { id := 0 }
      { seconds := 1, nanos := 2 } := by
    simp [Meter.collectCalls, argsEx]
  exact ⟨hm, ((collect_same_collection_instant [okStorage] sharedEx libEx { id := 0 }
    { seconds := 1, nanos := 2 }).2 (okStorage, argsEx) hm).1⟩

/-- C6: when every storage's collect resolves, the list Meter.collect returns
carries exactly the non-empty results (empty/undefined results are discarded),
and when every storage produces an empty result the call returns an empty
list rather than raising an error. -/
theorem collect_discards_empty_results (storages : List MetricStorageBehavior)
    (shared : MeterProviderSharedState) (lib : InstrumentationLibrary)
    (collector : MetricCollectorHandle) (t : HrTime)
    (h : ∀ s ∈ storages, ∃ o, s.collect (Meter.collectArgs shared lib collector t) = .ok o) :
    Meter.collect storages shared lib collector t =
      .ok (storages.filterMap (fun s =>
        match s.collect (Meter.collectArgs shared lib collector t) with
        | .ok o => o
        | .error _ => none)) ∧
    ((∀ s ∈ storages, s.collect (Meter.collectArgs shared lib collector t) = .ok none) →
      Meter.collect storages shared lib collector t = .ok []) := by
  have hmain : Meter.collect storages shared lib collector t =
      .ok (storages.filterMap (fun s =>
        match s.collect (Meter.collectArgs shared lib collector t) with
        | .ok o => o
        | .error _ => none)) := by
    rw [meter_collect_eq]
    rw [promiseAll_ok _ (by
      intro r hr
      simp only [List.mem_map] at hr
      obtain ⟨s, hs, rfl⟩ := hr
      exact h s hs)]
    simp only [Except.map, List.map_map, List.filterMap_map]
    rfl
  refine ⟨hmain, ?_⟩
  intro h2
  rw [hmain]
  congr 1
  refine List.filterMap_eq_nil_iff.mpr ?_
  intro s hs
  rw [h2 s hs]

/-- Witness for C6: two concrete storages, one producing an empty result and
one producing a MetricData; the empty result is discarded. -/
theorem collect_discards_empty_results_witness :
    Meter.collect [emptyStorage, okStorage] sharedEx libEx { id := 0 }
      { seconds := 1, nanos := 2 } = .ok [okData] := by
  have h : ∀ s ∈ [emptyStorage, okStorage], ∃ o,
      s.collect (Meter.collectArgs sharedEx libEx { id := 0 } { seconds := 1, nanos := 2 }) =
        .ok o := by
    intro s hs
    simp only [List.mem_cons, List.mem_singleton] at hs
    rcases hs with rfl | rfl | h
    · exact ⟨none, rfl⟩
    · exact ⟨some okData, rfl⟩
    · exact absurd h (List.not_mem_nil s)
  exact ((collect_discards_empty_results [emptyStorage, okStorage] sharedEx libEx
    { id := 0 } { seconds := 1, nanos := 2 } h).1).trans (by rfl)

/-- C1 exhibit: Meter.collect is a bare Promise.all over the storages'
collects; with two registered storages where the first's collect rejects and
the second's resolves with a MetricData, the whole Meter.collect call rejects:
the second storage's MetricData is not returned and no partial result is
surfaced, contrary to the claimed per-instrument error isolation. -/
theorem collect_rejects_wholesale_on_storage_failure :
    Meter.collect [failingStorage, okStorage] sharedEx libEx { id := 0 }
      { seconds := 1, nanos := 2 } = .error "boom" ∧
    exceptIsOk (Meter.collect [failingStorage, okStorage] sharedEx libEx { id := 0 }
      { seconds := 1, nanos := 2 }) = false ∧
    okStorage.collect argsEx = .ok (some okData) := by
  exact ⟨rfl, rfl, rfl⟩

/-- C2: when zero registered views match a descriptor, findViews synthesizes
the single default view, so registration still creates and registers a
storage with default aggregation under the instrument's name, and a
subsequent write through the returned instrument handle is accumulated and
reported on a later collect rather than being lost. -/
theorem default_storage_when_no_view_matches (shared : MeterProviderSharedState)
    (lib : InstrumentationLibrary) (d : InstrumentDescriptor) (m : Measurement)
    (collector : MetricCollectorHandle) (t : HrTime)
    (hm : ∀ v ∈ shared.viewRegistry, viewMatches v d lib = false) :
    ViewRegistry.findViews shared.viewRegistry d lib = [defaultView] ∧
    (Meter.registerMetricStorage shared lib MeterState.initial d).2.registry =
      [(d.name, 0)] ∧
    heapGet (Meter.registerMetricStorage shared lib MeterState.initial d).2.heap 0 =
      some (SyncMetricStorage.create defaultView d) ∧
    Meter.collectSync ((Meter.registerMetricStorage shared lib MeterState.initial d).2.record
        (Meter.registerMetricStorage shared lib MeterState.initial d).1 m)
      shared lib collector t =
      .ok [{ name := d.name, resource := shared.resource,
             instrumentationLibrary := lib,
             points := [{ attributes := m.attributes,
                          value := pointValue d.type [] [m.value],
                          startTime := shared.sdkStartTime, endTime := t }] }] := by
  have hf : ViewRegistry.findViews shared.viewRegistry d lib = [defaultView] := by
    have hfil : shared.viewRegistry.filter (fun v => viewMatches v d lib) = [] :=
      List.filter_eq_nil_iff.mpr (fun v hv => by simp [hm v hv])
    simp [ViewRegistry.findViews, hfil]
  obtain ⟨hids, hreg, hget, hstor⟩ :=
    register_record_spec shared lib d [defaultView] m hf (by simp)
  refine ⟨hf, by simpa using hreg, ?_, ?_⟩
  · simp [Meter.registerMetricStorage, hf, Meter.createStorages, MeterState.initial,
      heapGet, mapSet]
  · simp only [List.length_cons, List.length_nil] at hstor
    simp only [List.get?_eq_getElem?] at hstor
    simp at hstor
    simp only [Meter.collectSync]
    rw [hstor]
    simp only [List.map_cons, List.map_nil]
    rw [collect_behavior_singleton, collectData_single_record]
    rfl

/-- Witness for C2: a fresh shared state with no registered views, a counter
descriptor, one write of 7 with empty attributes; the write is collected. -/
theorem default_storage_when_no_view_matches_witness :
    ViewRegistry.findViews sharedEx.viewRegistry
      { name := "c", type := .COUNTER, description := "", unit := "1" } libEx =
      [defaultView] ∧
    Meter.collectSync
      ((Meter.registerMetricStorage sharedEx libEx MeterState.initial
          { name := "c", type := .COUNTER, description := "", unit := "1" }).2.record
        (Meter.registerMetricStorage sharedEx libEx MeterState.initial
          { name := "c", type := .COUNTER, description := "", unit := "1" }).1
        { value := 7, attributes := [] })
      sharedEx libEx { id := 0 } { seconds := 1, nanos := 2 } =
      .ok [{ name := "c", resource := { attributes := [] },
             instrumentationLibrary := libEx,
             points := [{ attributes := [], value := .sum 7,
                          startTime := { seconds := 0, nanos := 0 },
                          endTime := { seconds := 1, nanos := 2 } }] }] := by
  have h := default_storage_when_no_view_matches sharedEx libEx
    { name := "c", type := .COUNTER, description := "", unit := "1" }
    { value := 7, attributes := [] } { id := 0 } { seconds := 1, nanos := 2 }
    (by intro v hv; simp [sharedEx] at hv)
  exact ⟨h.1, h.2.2.2.trans (by rfl)⟩

/-- C5: registering a second instrument under the same name silently wins:
afterwards the registry maps that name to the second registration's storage,
the first registration's storage is no longer reachable from the registry
(hence no longer collected), and no error is raised — registration is total
and still returns a handle. -/
theorem second_registration_wins (shared : MeterProviderSharedState)
    (lib : InstrumentationLibrary) (d1 d2 : InstrumentDescriptor) (v1 v2 : View)
    (hname : d1.name = d2.name)
    (h1 : ViewRegistry.findViews shared.viewRegistry d1 lib = [v1])
    (h2 : ViewRegistry.findViews shared.viewRegistry d2 lib = [v2]) :
    (Meter.registerMetricStorage shared lib
      (Meter.registerMetricStorage shared lib MeterState.initial d1).2 d2).2.registry =
      [(d2.name, 1)] ∧
    heapGet (Meter.registerMetricStorage shared lib
      (Meter.registerMetricStorage shared lib MeterState.initial d1).2 d2).2.heap 1 =
      some (SyncMetricStorage.create v2 d2) ∧
    (Meter.registerMetricStorage shared lib
      (Meter.registerMetricStorage shared lib MeterState.initial d1).2 d2).2.registryStorages =
      [SyncMetricStorage.create v2 d2] ∧
    heapGet (Meter.registerMetricStorage shared lib
      (Meter.registerMetricStorage shared lib MeterState.initial d1).2 d2).2.heap 0 =
      some (SyncMetricStorage.create v1 d1) := by
  have hr1 : Meter.registerMetricStorage shared lib MeterState.initial d1 =
      (.single 0, { nextId := 1, heap := [(0, SyncMetricStorage.create v1 d1)],
                    registry := [(d1.name, 0)] }) := by
    simp [Meter.registerMetricStorage, h1, Meter.createStorages, MeterState.initial,
      mapSet, storagesHandle]
  have hr2 : Meter.registerMetricStorage shared lib
      (Meter.registerMetricStorage shared lib MeterState.initial d1).2 d2 =
      (.single 1,
        { nextId := 2,
          heap := [(0, SyncMetricStorage.create v1 d1), (1, SyncMetricStorage.create v2 d2)],
          registry := [(d2.name, 1)] }) := by
    rw [hr1]
    simp [Meter.registerMetricStorage, h2, Meter.createStorages, mapSet, hname,
      storagesHandle]
  rw [hr2]
  refine ⟨rfl, by simp [heapGet], ?_, by simp [heapGet]⟩
  simp [MeterState.registryStorages, heapGet, List.filterMap_cons]

/-- Witness for C5: two registrations under the name "dup" on a Meter with no
registered views; the registry ends up holding only the second storage. -/
theorem second_registration_wins_witness :
    (Meter.registerMetricStorage sharedEx libEx
      (Meter.registerMetricStorage sharedEx libEx MeterState.initial
        { name := "dup", type := .COUNTER, description := "", unit := "1" }).2
      { name := "dup", type := .HISTOGRAM, description := "", unit := "1" }).2.registry =
      [("dup", 1)] := by
  have h := second_registration_wins sharedEx libEx
    { name := "dup", type := .COUNTER, description := "", unit := "1" }
    { name := "dup", type := .HISTOGRAM, description := "", unit := "1" }
    defaultView defaultView rfl rfl rfl
  exact h.1

/-- A view matching instruments named "c", renaming them to "va". -/
def viewA : View :=
  { instrumentName := some "c", instrumentType := none, meterName := none,
    viewName := some "va", boundaries := none }

/-- A view matching instruments named "c", renaming them to "vb". -/
def viewB : View :=
  { instrumentName := some "c", instrumentType := none, meterName := none,
    viewName := some "vb", boundaries := none }

/-- A counter descriptor named "c". -/
def descC : InstrumentDescriptor :=
  { name := "c", type := .COUNTER, description := "", unit := "1" }

/-- Shared state whose view registry holds the two views matching "c". -/
def sharedTwo : MeterProviderSharedState :=
  { resource := { attributes := [] },
    sdkStartTime := { seconds := 0, nanos := 0 },
    viewRegistry := [viewA, viewB],
    metricCollectors := [{ id := 0 }],
    meters := [] }

/-- C8: instrument creation consults findViews with the descriptor and the
Meter's scope, creates exactly one SyncMetricStorage per returned view
(appended to the heap in view order), and backs the returned instrument with
that single storage when exactly one view matched, or with a
MultiMetricStorage over all created storages when more than one matched. -/
theorem one_storage_per_matching_view (shared : MeterProviderSharedState)
    (lib : InstrumentationLibrary) (st : MeterState) (d : InstrumentDescriptor)
    (vs : List View)
    (hv : ViewRegistry.findViews shared.viewRegistry d lib = vs) :
    (Meter.registerMetricStorage shared lib st d).2.heap =
      st.heap ++ (List.range' st.nextId vs.length).zip
        (vs.map (fun v => SyncMetricStorage.create v d)) ∧
    (Meter.registerMetricStorage shared lib st d).2.heap.length =
      st.heap.length + vs.length ∧
    (vs.length = 1 →
      (Meter.registerMetricStorage shared lib st d).1 = .single st.nextId) ∧
    (2 ≤ vs.length →
      (Meter.registerMetricStorage shared lib st d).1 =
        .multi (List.range' st.nextId vs.length)) := by
  have hheap : (Meter.registerMetricStorage shared lib st d).2.heap =
      st.heap ++ (List.range' st.nextId vs.length).zip
        (vs.map (fun v => SyncMetricStorage.create v d)) := by
    simp only [Meter.registerMetricStorage, hv]
    exact createStorages_heap d vs st
  have hids : (Meter.registerMetricStorage shared lib st d).1 =
      storagesHandle (List.range' st.nextId vs.length) := by
    simp only [Meter.registerMetricStorage, hv]
    rw [createStorages_ids]
  refine ⟨hheap, ?_, ?_, ?_⟩
  · rw [hheap]
    simp [List.length_zip]
  · intro hl
    rw [hids, hl]
    rfl
  · intro hge
    rw [hids]
    cases vs with
    | nil => simp at hge
    | cons v1 rest =>
      cases rest with
      | nil => simp at hge
      | cons v2 rest2 => rfl

/-- Witness for C8: with zero registered views (hence the one default view)
the handle is the single storage; with two matching views it is a
MultiMetricStorage over both created storages. -/
theorem one_storage_per_matching_view_witness :
    (Meter.registerMetricStorage sharedEx libEx MeterState.initial
      { name := "c", type := .COUNTER, description := "", unit := "1" }).1 = .single 0 ∧
    (Meter.registerMetricStorage sharedTwo libEx MeterState.initial descC).1 =
      .multi [0, 1] := by
  refine ⟨?_, ?_⟩
  · exact (one_storage_per_matching_view sharedEx libEx MeterState.initial
      { name := "c", type := .COUNTER, description := "", unit := "1" }
      [defaultView] rfl).2.2.1 rfl
  · exact (one_storage_per_matching_view sharedTwo libEx MeterState.initial descC
      [viewA, viewB] rfl).2.2.2 (by decide)

def c3Reg : WritableStorageHandle × MeterState :=
  Meter.registerMetricStorage sharedTwo libEx MeterState.initial descC

def c3State : MeterState := c3Reg.2.record c3Reg.1 { value := 5, attributes := [] }

/-- C3 counterexample: instrument "c" matched two views, yet collect returns
one MetricData for it — the last view's ("vb") — not two per-view results:
each storage's collect yields at most one MetricData (MetricStorage.ts types
collect as a single Maybe MetricData) and Meter.collect only filters, it does
not flatten per-view lists. -/
theorem multi_view_collect_single_result_cex :
    (ViewRegistry.findViews sharedTwo.viewRegistry descC libEx).length = 2 ∧
    Meter.collectSync c3State sharedTwo libEx { id := 0 } { seconds := 1, nanos := 2 } =
      .ok [{ name := "vb", resource := { attributes := [] },
             instrumentationLibrary := libEx,
             points := [{ attributes := [], value := .sum 5,
                          startTime := { seconds := 0, nanos := 0 },
                          endTime := { seconds := 1, nanos := 2 } }] }] ∧
    collectedCount (Meter.collectSync c3State sharedTwo libEx { id := 0 }
      { seconds := 1, nanos := 2 }) = 1 ∧
    ((1 : Nat) == 2) = false := by
  exact ⟨rfl, rfl, rfl, rfl⟩

/-- C3 amended: for an instrument that matched n >= 2 views, only the last
matching view's storage remains registered under the instrument's name, so
the collect of that Meter yields exactly one MetricData for the instrument —
built from the last view (its rename and aggregation) — rather than n
per-view results flattened into the output. -/
theorem multi_view_collect_last_view_only (shared : MeterProviderSharedState)
    (lib : InstrumentationLibrary) (d : InstrumentDescriptor) (vs : List View)
    (m : Measurement) (collector : MetricCollectorHandle) (t : HrTime)
    (hv : ViewRegistry.findViews shared.viewRegistry d lib = vs)
    (h2 : 2 ≤ vs.length) :
    ∃ last : View, vs.getLast? = some last ∧
      Meter.collectSync ((Meter.registerMetricStorage shared lib MeterState.initial d).2.record
          (Meter.registerMetricStorage shared lib MeterState.initial d).1 m)
        shared lib collector t =
      .ok [{ name := last.viewName.getD d.name, resource := shared.resource,
             instrumentationLibrary := lib,
             points := [{ attributes := m.attributes,
                          value := pointValue d.type (last.boundaries.getD []) [m.value],
                          startTime := shared.sdkStartTime, endTime := t }] }] := by
  have hne : vs ≠ [] := by
    intro h
    subst h
    simp at h2
  obtain ⟨hids, hreg, hget, hstor⟩ := register_record_spec shared lib d vs m hv hne
  have hk : vs.length - 1 < vs.length := by
    cases vs with
    | nil => exact absurd rfl hne
    | cons v t => simp
  obtain ⟨last, hlast⟩ : ∃ v, vs.get? (vs.length - 1) = some v := by
    rw [List.get?_eq_get hk]
    exact ⟨_, rfl⟩
  refine ⟨last, ?_, ?_⟩
  · rw [List.getLast?_eq_getElem?, ← List.get?_eq_getElem?]
    exact hlast
  · simp only [Meter.collectSync]
    rw [hstor, hlast]
    simp only [Option.map_some', Option.toList_some, List.map_cons, List.map_nil]
    rw [collect_behavior_singleton, collectData_single_record]
    rfl

/-- Witness for C3's amended claim at the concrete two-view scenario: the
last view is "vb" and collect returns exactly its MetricData. -/
theorem multi_view_collect_last_view_only_witness :
    Meter.collectSync c3State sharedTwo libEx { id := 0 } { seconds := 1, nanos := 2 } =
      .ok [{ name := "vb", resource := { attributes := [] },
             instrumentationLibrary := libEx,
             points := [{ attributes := [], value := .sum 5,
                          startTime := { seconds := 0, nanos := 0 },
                          endTime := { seconds := 1, nanos := 2 } }] }] := by
  obtain ⟨last, hl, hc⟩ := multi_view_collect_last_view_only sharedTwo libEx descC
    [viewA, viewB] { value := 5, attributes := [] } { id := 0 }
    { seconds := 1, nanos := 2 } rfl (by decide)
  have hlb : viewB = last := by
    simpa using hl
  subst hlb
  exact hc.trans (by rfl)

/-- C4: for an instrument that matched n >= 2 views, after registration the
Meter's registry maps the descriptor's name to the storage created from the
last matching view only, while the returned handle is a MultiMetricStorage
whose writes reach all n created storages; hence Meter.collect reads only the
last view's storage for that instrument. -/
theorem multi_view_registry_keeps_last_only (shared : MeterProviderSharedState)
    (lib : InstrumentationLibrary) (d : InstrumentDescriptor) (vs : List View)
    (m : Measurement)
    (hv : ViewRegistry.findViews shared.viewRegistry d lib = vs)
    (h2 : 2 ≤ vs.length) :
    (Meter.registerMetricStorage shared lib MeterState.initial d).1 =
      .multi (List.range' 0 vs.length) ∧
    (Meter.registerMetricStorage shared lib MeterState.initial d).2.registry =
      [(d.name, vs.length - 1)] ∧
    (∀ k, k < vs.length → ∃ v : View, vs.get? k = some v ∧
      heapGet ((Meter.registerMetricStorage shared lib MeterState.initial d).2.record
        (Meter.registerMetricStorage shared lib MeterState.initial d).1 m).heap k =
        some { view := v, descriptor := d, records := [m] }) ∧
    (∃ last : View, vs.get? (vs.length - 1) = some last ∧
      ((Meter.registerMetricStorage shared lib MeterState.initial d).2.record
        (Meter.registerMetricStorage shared lib MeterState.initial d).1 m).registryStorages =
      [{ view := last, descriptor := d, records := [m] }]) := by
  have hne : vs ≠ [] := by
    intro h
    subst h
    simp at h2
  obtain ⟨hids, hreg, hget, hstor⟩ := register_record_spec shared lib d vs m hv hne
  refine ⟨?_, hreg, ?_, ?_⟩
  · rw [hids]
    cases vs with
    | nil => simp at h2
    | cons v1 rest =>
      cases rest with
      | nil => simp at h2
      | cons v2 rest2 => rfl
  · intro k hk
    obtain ⟨v, hvk⟩ : ∃ v, vs.get? k = some v := by
      rw [List.get?_eq_get hk]
      exact ⟨_, rfl⟩
    refine ⟨v, hvk, ?_⟩
    rw [hget k hk, hvk]
    rfl
  · have hk : vs.length - 1 < vs.length := by
      cases vs with
      | nil => exact absurd rfl hne
      | cons v t => simp
    obtain ⟨last, hlast⟩ : ∃ v, vs.get? (vs.length - 1) = some v := by
      rw [List.get?_eq_get hk]
      exact ⟨_, rfl⟩
    refine ⟨last, hlast, ?_⟩
    rw [hstor, hlast]
    rfl

/-- Witness for C4 at the concrete two-view scenario: the handle is a
MultiMetricStorage over both storages and the registry keeps only the
second (last) one. -/
theorem multi_view_registry_keeps_last_only_witness :
    (Meter.registerMetricStorage sharedTwo libEx MeterState.initial descC).1 =
      .multi [0, 1] ∧
    (Meter.registerMetricStorage sharedTwo libEx MeterState.initial descC).2.registry =
      [("c", 1)] := by
  have h := multi_view_registry_keeps_last_only sharedTwo libEx descC [viewA, viewB]
    { value := 5, attributes := [] } rfl (by decide)
  exact ⟨h.1, h.2.1⟩

/-- A view matching the "int-histogram" instrument with explicit boundaries
[0, 100] (mirroring the mockHistogram options). -/
def histView : View :=
  { instrumentName := some "int-histogram", instrumentType := none, meterName := none,
    viewName := none, boundaries := some [0, 100] }

/-- The "int-histogram" descriptor of the mockHistogram helper. -/
def histDesc : InstrumentDescriptor :=
  { name := "int-histogram", type := .HISTOGRAM,
    description := "sample histogram description", unit := "1" }

/-- Shared state whose view registry carries the [0, 100] histogram view. -/
def sharedHist : MeterProviderSharedState :=
  { resource := { attributes := [] },
    sdkStartTime := { seconds := 0, nanos := 0 },
    viewRegistry := [histView],
    metricCollectors := [{ id := 0 }],
    meters := [] }

def c9Reg : WritableStorageHandle × MeterState :=
  Meter.registerMetricStorage sharedHist libEx MeterState.initial histDesc

/-- The Meter state after recording the values 10 and 11 (empty attribute
set) into the registered [0, 100] histogram storage. -/
def c9State : MeterState :=
  (c9Reg.2.record c9Reg.1 { value := 10, attributes := [] }).record c9Reg.1
    { value := 11, attributes := [] }

/-- C9 counterexample: with explicit boundaries [0, 100] and recorded values
10 and 11, the collected point has sum 21 and count 2 as claimed, but its
bucketCounts are [0, 2, 0] — one bucket per explicit boundary plus the
implicit overflow bucket — not [2, 0]; the [2, 0] shape belongs to the test
helper's default explicitBounds [Infinity], not to boundaries [0, 100]. -/
theorem histogram_bucket_counts_cex :
    Meter.collectSync c9State sharedHist libEx { id := 0 } { seconds := 1, nanos := 2 } =
      .ok [{ name := "int-histogram", resource := { attributes := [] },
             instrumentationLibrary := libEx,
             points := [{ attributes := [], value := .histogram 21 2 [0, 2, 0],
                          startTime := { seconds := 0, nanos := 0 },
                          endTime := { seconds := 1, nanos := 2 } }] }] ∧
    (([0, 2, 0] : List Nat) == [2, 0]) = false := by
  exact ⟨rfl, rfl⟩

/-- C9 amended: for a histogram with explicit boundaries [0, 100], recording
the values 10 and 11 (and nothing else) under one attribute set yields, at
the next collection, a single point with bucketCounts = [0, 2, 0], sum = 21
and count = 2. -/
theorem histogram_bucket_counts_amended :
    Meter.collectSync c9State sharedHist libEx { id := 0 } { seconds := 1, nanos := 2 } =
      .ok [{ name := "int-histogram", resource := { attributes := [] },
             instrumentationLibrary := libEx,
             points := [{ attributes := [],
                          value := pointValue .HISTOGRAM [0, 100] [10, 11],
                          startTime := { seconds := 0, nanos := 0 },
                          endTime := { seconds := 1, nanos := 2 } }] }] ∧
    pointValue .HISTOGRAM [0, 100] [10, 11] = .histogram 21 2 [0, 2, 0] ∧
    histBucketCounts [0, 100] [10, 11] = [0, 2, 0] := by
  exact ⟨rfl, rfl, rfl⟩
